import Mathlib

/-!
Shallow embedding of the node-opcua server-side Subscription engine
(`packages/node-opcua-server/src/subscription.js`) and of the
acknowledgeable-condition branch logic (alarms-and-conditions source file).

Machine numbers are modelled as `Int`/`Nat`; JS `x || d` on numbers is
modelled by `orDefault` (`0` is the only falsy integer that occurs here).
External collaborators absent from the sources (sequence-number generator,
publish engine, condition base class helpers) are modelled from the spec and
carry a doc comment saying so.
-/

/-- OPC UA status codes returned by the modelled operations. -/
inductive StatusCode where
  | Good
  | BadTimeout
  | BadSequenceNumberUnknown
  | BadMonitoredItemIdInvalid
  | BadConditionBranchAlreadyAcked
  | BadConditionBranchAlreadyConfirmed
  | GoodSubscriptionTransferred
  deriving DecidableEq, Repr

/-- The `SubscriptionState` enum of subscription.js. -/
inductive SubscriptionState where
  | CLOSED
  | CREATING
  | NORMAL
  | LATE
  | KEEPALIVE
  | TERMINATED
  deriving DecidableEq, Repr

/-- One element harvested from a monitored item: either a
`MonitoredItemNotification` (data change) or an `EventFieldList` (event).
The payload is abstracted to the client handle. -/
inductive MonitoredItemNotif where
  | monitoredItemNotification (clientHandle : Nat)
  | eventFieldList (clientHandle : Nat)
  deriving DecidableEq, Repr

/-- The notification objects a NotificationMessage can carry. -/
inductive NotificationData where
  | dataChangeNotification (monitoredItems : List MonitoredItemNotif)
  | eventNotificationList (events : List MonitoredItemNotif)
  | statusChangeNotification (statusCode : StatusCode)
  deriving DecidableEq, Repr

/-- The envelope pushed on `_pending_notifications` / `_sent_notifications`:
`{notification, start_tick, publishTime, sequenceNumber}` with the wall-clock
`publishTime` omitted and the `NotificationMessage` collapsed to its
`notificationData`. -/
structure NotificationEnvelope where
  sequenceNumber : Nat
  start_tick : Nat
  notification : List NotificationData
  deriving DecidableEq, Repr

/-- A monitored item, reduced to the contract the subscription uses:
its id and its buffer of uncollected notifications
(`extractMonitoredItemNotifications` drains the buffer,
`hasMonitoredItemNotifications` tests it for emptiness). -/
structure MonitoredItem where
  monitoredItemId : Nat
  notifications : List MonitoredItemNotif
  deriving DecidableEq, Repr

/-- Modelled from the spec: `SequenceNumberGenerator` (external package
`node-opcua-secure-channel`, absent from src). A monotonic allocator:
`next()` allocates the next sequence number, `future()` peeks at it without
consuming it; the first allocated number is 1. -/
structure SequenceNumberGenerator where
  counter : Nat
  deriving DecidableEq, Repr

def SequenceNumberGenerator.next (g : SequenceNumberGenerator) :
    Nat × SequenceNumberGenerator :=
  (g.counter + 1, ⟨g.counter + 1⟩)

def SequenceNumberGenerator.future (g : SequenceNumberGenerator) : Nat :=
  g.counter + 1

/-- The subscription state (the mutable fields of the `Subscription` object
that the modelled operations read or write). `timerActive` stands for
`timerId !== null`. -/
structure Subscription where
  id : Nat
  priority : Int
  publishingInterval : Int
  maxKeepAliveCount : Int
  lifeTimeCount : Int
  maxNotificationsPerPublish : Int
  publishingEnabled : Bool
  messageSent : Bool
  _life_time_counter : Int
  _keep_alive_counter : Int
  publishIntervalCount : Nat
  _pending_notifications : List NotificationEnvelope
  _sent_notifications : List NotificationEnvelope
  _sequence_number_generator : SequenceNumberGenerator
  state : SubscriptionState
  monitoredItems : List MonitoredItem
  _unacknowledgedMessageCount : Int
  timerActive : Bool
  deriving DecidableEq, Repr

/-- JS `x || d` for the integer-valued parameters: `0` is falsy. -/
def orDefault (x d : Int) : Int := if x = 0 then d else x

def defaultPublishingInterval : Int := 1000

def minimumPublishingInterval : Int := 50

def maximumPublishingInterval : Int := 1000 * 60 * 60 * 24 * 15

/-- `_adjust_publishing_interval` of subscription.js. -/
def _adjust_publishing_interval (publishingInterval : Int) : Int :=
  let p1 := orDefault publishingInterval defaultPublishingInterval
  let p2 := max p1 minimumPublishingInterval
  min p2 maximumPublishingInterval

def minimumMaxKeepAliveCount : Int := 2

def maximumMaxKeepAliveCount : Int := 12000

/-- `_adjust_maxKeepAliveCount` of subscription.js. -/
def _adjust_maxKeepAliveCount (maxKeepAliveCount : Int) : Int :=
  let k1 := orDefault maxKeepAliveCount minimumMaxKeepAliveCount
  let k2 := max k1 minimumMaxKeepAliveCount
  min k2 maximumMaxKeepAliveCount

/-- `Math.ceil (a / b)` for integers with `b > 0`. -/
def ceilDiv (a b : Int) : Int := (a + b - 1) / b

/-- `_adjust_lifeTimeCount` of subscription.js. -/
def _adjust_lifeTimeCount (lifeTimeCount maxKeepAliveCount publishingInterval : Int) : Int :=
  let l1 := orDefault lifeTimeCount 1
  let l2 := max l1 (maxKeepAliveCount * 3)
  let minTicks := ceilDiv (5 * 1000) publishingInterval
  max minTicks l2

/-- `_adjust_maxNotificationsPerPublish` of subscription.js
(used on create, quoted in §4.1 of the spec as `max(input, 0)`). -/
def _adjust_maxNotificationsPerPublish (maxNotificationsPerPublish : Int) : Int :=
  if 0 ≤ maxNotificationsPerPublish then maxNotificationsPerPublish else 0

/-- The parameter record taken by `Subscription.prototype.modify`. -/
structure ModifySubscriptionParameters where
  requestedPublishingInterval : Int
  requestedLifetimeCount : Int
  requestedMaxKeepAliveCount : Int
  maxNotificationsPerPublish : Int
  priority : Int
  deriving DecidableEq, Repr

def Subscription.resetLifeTimeCounter (sub : Subscription) : Subscription :=
  { sub with _life_time_counter := 0 }

def Subscription.resetKeepAliveCounter (sub : Subscription) : Subscription :=
  { sub with _keep_alive_counter := 0 }

def Subscription.resetLifeTimeAndKeepAliveCounters (sub : Subscription) : Subscription :=
  sub.resetLifeTimeCounter.resetKeepAliveCounter

def Subscription._stop_timer (sub : Subscription) : Subscription :=
  if sub.timerActive then { sub with timerActive := false } else sub

/-- `_start_timer` of subscription.js: before arming the periodic timer it
presets `_keep_alive_counter` to `maxKeepAliveCount`, so that a keep-alive
message is sent at the end of the first publishing cycle. -/
def Subscription._start_timer (sub : Subscription) : Subscription :=
  { sub with _keep_alive_counter := sub.maxKeepAliveCount, timerActive := true }

/-- `Subscription.prototype.modify`. The diagnostics counter update is not
modelled; note that `maxNotificationsPerPublish` and `priority` are copied
from the parameters without adjustment. -/
def Subscription.modify (sub : Subscription) (param : ModifySubscriptionParameters) :
    Subscription :=
  let rPI := orDefault param.requestedPublishingInterval 0
  let rMKAC := orDefault param.requestedMaxKeepAliveCount sub.maxKeepAliveCount
  let rLTC := orDefault param.requestedLifetimeCount sub.lifeTimeCount
  let newPublishingInterval := _adjust_publishing_interval rPI
  let newMaxKeepAliveCount := _adjust_maxKeepAliveCount rMKAC
  let newLifeTimeCount := _adjust_lifeTimeCount rLTC newMaxKeepAliveCount newPublishingInterval
  let sub1 := { sub with
    publishingInterval := newPublishingInterval
    maxKeepAliveCount := newMaxKeepAliveCount
    lifeTimeCount := newLifeTimeCount
    maxNotificationsPerPublish := param.maxNotificationsPerPublish
    priority := param.priority }
  let sub2 := sub1.resetLifeTimeAndKeepAliveCounters
  let sub3 := sub2._stop_timer
  sub3._start_timer

def maxNotificationMessagesInQueue : Nat := 100

/-- JS `Array.prototype.splice(start)` with a single argument removes every
element from index `start` to the end, keeping the first `start` elements. -/
def spliceFrom (l : List NotificationEnvelope) (start : Nat) : List NotificationEnvelope :=
  l.take start

/-- `Subscription.prototype.discardOldSentNotifications`. -/
def Subscription.discardOldSentNotifications (sub : Subscription) : Subscription :=
  if maxNotificationMessagesInQueue ≤ sub._sent_notifications.length then
    let start := sub._sent_notifications.length - maxNotificationMessagesInQueue
    { sub with _sent_notifications := spliceFrom sub._sent_notifications start }
  else sub

/-- The search loop of `acknowledgeNotification`: the underscore `find` is
called with a callback that records the index of each matching entry and
returns `undefined`, so the scan never stops early and `foundIndex` ends as
the index of the LAST entry whose `sequenceNumber` matches (`none` for -1). -/
def ackScan (l : List NotificationEnvelope) (sequenceNumber : Nat) (i : Nat)
    (foundIndex : Option Nat) : Option Nat :=
  match l with
  | [] => foundIndex
  | e :: rest =>
      ackScan rest sequenceNumber (i + 1)
        (if e.sequenceNumber = sequenceNumber then some i else foundIndex)

/-- `Subscription.prototype.acknowledgeNotification`. -/
def Subscription.acknowledgeNotification (sub : Subscription) (sequenceNumber : Nat) :
    StatusCode × Subscription :=
  match ackScan sub._sent_notifications sequenceNumber 0 none with
  | none => (StatusCode.BadSequenceNumberUnknown, sub)
  | some foundIndex =>
      (StatusCode.Good,
       { sub with
         _sent_notifications := sub._sent_notifications.eraseIdx foundIndex
         _unacknowledgedMessageCount := sub._unacknowledgedMessageCount - 1 })

/-- `hasPendingNotifications` getter (`pendingNotificationsCount > 0`). -/
def Subscription.hasPendingNotifications (sub : Subscription) : Bool :=
  0 < sub._pending_notifications.length

/-- Monitored-item contract: `hasMonitoredItemNotifications` is true when the
item's uncollected notification buffer is non-empty. -/
def MonitoredItem.hasMonitoredItemNotifications (mi : MonitoredItem) : Bool :=
  0 < mi.notifications.length

/-- The subscription's `hasMonitoredItemNotifications` getter, with the lazy
cache `_hasMonitoredItemNotifications` elided (the cache only memoizes the
same pure query between harvests). -/
def Subscription.hasMonitoredItemNotifications (sub : Subscription) : Bool :=
  sub.monitoredItems.any MonitoredItem.hasMonitoredItemNotifications

def isMonitoredItemNotification : MonitoredItemNotif → Bool
  | .monitoredItemNotification _ => true
  | .eventFieldList _ => false

def isEventFieldList : MonitoredItemNotif → Bool
  | .monitoredItemNotification _ => false
  | .eventFieldList _ => true

/-- `extract_notifications_chunk`: shift up to `maxNotificationsPerPublish`
elements off the front (all of them when the maximum is 0); the first
component is the chunk, the second what remains of the mutated dequeue. -/
def extract_notifications_chunk (monitoredItems : List MonitoredItemNotif)
    (maxNotificationsPerPublish : Nat) :
    List MonitoredItemNotif × List MonitoredItemNotif :=
  let n := if maxNotificationsPerPublish = 0 then monitoredItems.length
           else min monitoredItems.length maxNotificationsPerPublish
  (monitoredItems.take n, monitoredItems.drop n)

/-- The `while (all_notifications.length > 0)` loop of
`Subscription.prototype._collectNotificationData`, over the already
concatenated list of harvested notifications. -/
def _collectNotificationData_loop (all_notifications : List MonitoredItemNotif)
    (maxNotificationsPerPublish : Nat) : List (List NotificationData) :=
  if _h : all_notifications.length = 0 then []
  else
    let chunkRest := extract_notifications_chunk all_notifications maxNotificationsPerPublish
    let notifications_chunk := chunkRest.1
    let dataChangedNotificationData := notifications_chunk.filter isMonitoredItemNotification
    let eventNotificationListData := notifications_chunk.filter isEventFieldList
    let notifications :=
      (if dataChangedNotificationData.length ≠ 0 then
        [NotificationData.dataChangeNotification dataChangedNotificationData] else [])
      ++ (if eventNotificationListData.length ≠ 0 then
        [NotificationData.eventNotificationList eventNotificationListData] else [])
    notifications :: _collectNotificationData_loop chunkRest.2 maxNotificationsPerPublish
termination_by all_notifications.length
decreasing_by
  simp [extract_notifications_chunk]
  rcases Nat.eq_zero_or_pos maxNotificationsPerPublish with hm | hm
  · simp [hm]
    omega
  · have : ¬ maxNotificationsPerPublish = 0 := by omega
    simp [this]
    omega

/-- `Subscription.prototype._collectNotificationData`: drain every monitored
item's buffer into one ordered list, then chunk it.  Returns the message
payload list and the subscription with drained monitored items.
The subscription's `maxNotificationsPerPublish` is a non-negative integer
here (the claims range over m ≥ 0), hence the `Int.toNat`. -/
def Subscription._collectNotificationData (sub : Subscription) :
    List (List NotificationData) × Subscription :=
  let all_notifications := (sub.monitoredItems.map MonitoredItem.notifications).flatten
  let drained := sub.monitoredItems.map fun mi => { mi with notifications := [] }
  (_collectNotificationData_loop all_notifications sub.maxNotificationsPerPublish.toNat,
   { sub with monitoredItems := drained })

/-- `Subscription.prototype._addNotificationMessage`: allocate the next
sequence number and push an envelope on `_pending_notifications`. -/
def Subscription._addNotificationMessage (sub : Subscription)
    (notificationData : List NotificationData) : Subscription :=
  let next := sub._sequence_number_generator.next
  let notification_message : NotificationEnvelope :=
    { sequenceNumber := next.1
      start_tick := sub.publishIntervalCount
      notification := notificationData }
  { sub with
    _pending_notifications := sub._pending_notifications ++ [notification_message]
    _sequence_number_generator := next.2 }

/-- `Subscription.prototype._harvestMonitoredItems`: collect the notification
data and push one NotificationMessage per produced chunk. -/
def Subscription._harvestMonitoredItems (sub : Subscription) : Subscription :=
  let cd := sub._collectNotificationData
  cd.1.foldl Subscription._addNotificationMessage cd.2

/-- Observable effects of a subscription operation, in emission order:
events emitted on the subscription object, calls into the publish engine, and
the enqueueing of a status-change notification. -/
inductive SubEvent where
  | expired
  | statusChangeEnqueued (statusCode : StatusCode)
  | removeMonitoredItem (monitoredItemId : Nat)
  | terminated
  | onCloseSubscription
  | keepalive (futureSequenceNumber : Nat)
  | notification
  | notificationMessage (sequenceNumber : Nat)
  | sendNotificationMessage (sequenceNumber : Nat) (moreNotifications : Bool)
  | sendKeepAliveResponse (futureSequenceNumber : Nat)
  deriving DecidableEq, Repr

/-- Modelled from the spec: the publish engine collaborator (external, absent
from src). `pendingPublishRequestCount` is consulted;
`send_keep_alive_response` returns whether a publish request was consumed,
modelled by the oracle `keepAliveAccepted`. -/
structure PublishEngine where
  pendingPublishRequestCount : Nat
  keepAliveAccepted : Bool
  deriving DecidableEq, Repr

/-- `Subscription.prototype.terminate`: stop the timer, remove every
monitored item, close, emit "terminated", notify the publish engine. -/
def Subscription.terminate (sub : Subscription) : Subscription × List SubEvent :=
  if sub.state = SubscriptionState.CLOSED then (sub, [])
  else
    let sub1 := sub._stop_timer
    let removeEvents := sub1.monitoredItems.map
      (fun mi => SubEvent.removeMonitoredItem mi.monitoredItemId)
    let sub2 := { sub1 with monitoredItems := [], state := SubscriptionState.CLOSED }
    (sub2, removeEvents ++ [SubEvent.terminated, SubEvent.onCloseSubscription])

/-- `Subscription.prototype._sendKeepAliveResponse`. -/
def Subscription._sendKeepAliveResponse (sub : Subscription) (engine : PublishEngine) :
    Bool × Subscription × List SubEvent :=
  let future_sequence_number := sub._sequence_number_generator.future
  if engine.keepAliveAccepted then
    (true,
     { sub with messageSent := true, state := SubscriptionState.KEEPALIVE },
     [SubEvent.sendKeepAliveResponse future_sequence_number,
      SubEvent.keepalive future_sequence_number])
  else
    (false, sub, [SubEvent.sendKeepAliveResponse future_sequence_number])

/-- `Subscription.prototype._process_keepAlive`. -/
def Subscription._process_keepAlive (sub : Subscription) (engine : PublishEngine) :
    Subscription × List SubEvent :=
  let sub1 := { sub with _keep_alive_counter := sub._keep_alive_counter + 1 }
  if sub1.maxKeepAliveCount ≤ sub1._keep_alive_counter then
    let r := sub1._sendKeepAliveResponse engine
    if r.1 then (r.2.1.resetLifeTimeAndKeepAliveCounters, r.2.2)
    else ({ r.2.1 with state := SubscriptionState.LATE }, r.2.2)
  else (sub1, [])

/-- `Subscription.prototype._publish_pending_notifications`: pop the head of
the pending queue onto the sent queue and hand it to the publish engine.
(The empty-queue case is unreachable: every caller checks
`hasPendingNotifications` first; the source asserts it.) -/
def Subscription._publish_pending_notifications (sub : Subscription) :
    Subscription × List SubEvent :=
  match sub._pending_notifications with
  | [] => (sub, [])
  | env :: rest =>
      let sub1 := { sub with
        _pending_notifications := rest
        _sent_notifications := sub._sent_notifications ++ [env] }
      let moreNotifications := sub1.hasPendingNotifications
      let sub2 := { sub1 with
        messageSent := true
        _unacknowledgedMessageCount := sub1._unacknowledgedMessageCount + 1 }
      let sub3 := sub2.resetLifeTimeAndKeepAliveCounters
      let sub4 := if sub3.state ≠ SubscriptionState.CLOSED then
          { sub3 with state := SubscriptionState.NORMAL } else sub3
      (sub4,
       [SubEvent.notification, SubEvent.notificationMessage env.sequenceNumber,
        SubEvent.sendNotificationMessage env.sequenceNumber moreNotifications])

/-- `Subscription.prototype.process_subscription` (the `setImmediate`
re-trigger of `_tick` is asynchronous and not modelled). -/
def Subscription.process_subscription (sub : Subscription) (engine : PublishEngine) :
    Subscription × List SubEvent :=
  if !sub.publishingEnabled then sub._process_keepAlive engine
  else
    let sub1 := if !sub.hasPendingNotifications ∧ sub.hasMonitoredItemNotifications
      then sub._harvestMonitoredItems else sub
    if sub1.hasPendingNotifications then sub1._publish_pending_notifications
    else sub1._process_keepAlive engine

/-- `Subscription.prototype._tick` (the diagnostics, debug logging and the
optional `publishEngine._on_tick` hook have no modelled effect). -/
def Subscription._tick (sub : Subscription) (engine : PublishEngine) :
    Subscription × List SubEvent :=
  if sub.state = SubscriptionState.CLOSED then (sub, [])
  else
    let sub1 := sub.discardOldSentNotifications
    let sub2 := { sub1 with
      publishIntervalCount := sub1.publishIntervalCount + 1
      _life_time_counter := sub1._life_time_counter + 1 }
    if sub2.lifeTimeCount ≤ sub2._life_time_counter then
      let sub3 := sub2._addNotificationMessage
        [NotificationData.statusChangeNotification StatusCode.BadTimeout]
      let t := sub3.terminate
      (t.1, SubEvent.expired :: SubEvent.statusChangeEnqueued StatusCode.BadTimeout :: t.2)
    else
      if engine.pendingPublishRequestCount = 0
          ∧ (sub2.hasPendingNotifications ∨ sub2.hasMonitoredItemNotifications) then
        ({ sub2 with state := SubscriptionState.LATE }, [])
      else
        if 0 < engine.pendingPublishRequestCount then
          if sub2.hasPendingNotifications then sub2.process_subscription engine
          else if sub2.hasMonitoredItemNotifications then sub2.process_subscription engine
          else sub2._process_keepAlive engine
        else sub2._process_keepAlive engine

/-- A stored property value of a condition snapshot (`self._map` entries). -/
inductive Variant where
  | boolean (value : Bool)
  | localizedText (value : String)
  deriving DecidableEq, Repr

/-- A `UATwoStateVariable` node as the snapshot logic uses it: the localized
true/false state labels (`_trueState` / `_falseState`) and the live node
value written by `setValue` when the snapshot is on the current branch. -/
structure UATwoStateVariable where
  trueState : String
  falseState : String
  value : Bool
  deriving DecidableEq, Repr

/-- The condition node, reduced to what the acknowledge/confirm logic tests:
whether the optional `confirmedState` component (and its machinery) is
installed, and whether `ackedState` is (it is mandatory). -/
structure UAAcknowledgeableConditionBase where
  hasAckedState : Bool
  hasConfirmedState : Bool
  deriving DecidableEq, Repr

def mapSet (m : List (String × Variant)) (k : String) (v : Variant) :
    List (String × Variant) :=
  match m with
  | [] => [(k, v)]
  | (k1, v1) :: rest => if k1 = k then (k, v) :: rest else (k1, v1) :: mapSet rest k v

def mapGet (m : List (String × Variant)) (k : String) : Option Variant :=
  match m with
  | [] => none
  | (k1, v1) :: rest => if k1 = k then some v1 else mapGet rest k

def nodeIndexGet (m : List (String × UATwoStateVariable)) (k : String) :
    Option UATwoStateVariable :=
  match m with
  | [] => none
  | (k1, v1) :: rest => if k1 = k then some v1 else nodeIndexGet rest k

/-- `twoStateNode.setValue(value)` on the live node held in `_node_index`. -/
def nodeIndexSetValue (m : List (String × UATwoStateVariable)) (k : String) (value : Bool) :
    List (String × UATwoStateVariable) :=
  match m with
  | [] => []
  | (k1, v1) :: rest =>
      if k1 = k then (k1, { v1 with value := value }) :: rest
      else (k1, v1) :: nodeIndexSetValue rest k value

/-- Modelled from the spec: `ConditionSnapshot.normalizeName` (defined in
condition.js, absent from src). It is applied uniformly to build both the
value key and the `.id` key, so it is modelled as the identity. -/
def normalizeName (varName : String) : String := varName

/-- A condition snapshot (branch): the property map `_map`, the node index
`_node_index`, and — modelled from the spec, their accessors living in
condition.js which is absent from src — the branch identity
(`branchIdIsNull` stands for `branchId === NodeId.NullNodeId`), `eventId`
bytes, `comment` text and `retain` flag. `condition` is the back reference
`self.condition`. -/
structure ConditionSnapshot where
  map : List (String × Variant)
  nodeIndex : List (String × UATwoStateVariable)
  condition : UAAcknowledgeableConditionBase
  branchIdIsNull : Bool
  eventId : List Nat
  comment : String
  retain : Bool
  deriving DecidableEq, Repr

/-- Observable effects of the condition operations, in emission order. -/
inductive CondEvent where
  | value_changed (key : String) (variant : Variant)
  | raiseNewBranchState
  | auditConditionAcknowledge (eventId : List Nat) (comment : String)
  | auditConditionConfirm (eventId : List Nat) (comment : String)
  | auditConditionComment (message : String) (eventId : List Nat) (comment : String)
  | acknowledged (eventId : List Nat) (comment : String)
  | confirmed (eventId : List Nat) (comment : String)
  deriving DecidableEq, Repr

/-- `ConditionSnapshot.prototype.isCurrentBranch`. -/
def ConditionSnapshot.isCurrentBranch (self : ConditionSnapshot) : Bool :=
  self.branchIdIsNull

/-- `ConditionSnapshot.prototype._set_twoStateVariable`. `none` models the
thrown assertion when `_node_index` lacks the variable. -/
def ConditionSnapshot._set_twoStateVariable (self : ConditionSnapshot)
    (varName : String) (value : Bool) : Option (ConditionSnapshot × List CondEvent) :=
  let hrKey := normalizeName varName
  let idKey := normalizeName varName ++ ".id"
  let variant := Variant.boolean value
  let map1 := mapSet self.map idKey variant
  match nodeIndexGet self.nodeIndex hrKey with
  | none => none
  | some twoStateNode =>
      let txt := if value then twoStateNode.trueState else twoStateNode.falseState
      let hrValue := Variant.localizedText txt
      let map2 := mapSet map1 hrKey hrValue
      let nodeIndex1 := if self.isCurrentBranch
        then nodeIndexSetValue self.nodeIndex hrKey value else self.nodeIndex
      some ({ self with map := map2, nodeIndex := nodeIndex1 },
            [CondEvent.value_changed idKey variant])

/-- `ConditionSnapshot.prototype._get_twoStateVariable` (`none` models the
thrown error when the variant is missing). -/
def ConditionSnapshot._get_twoStateVariable (self : ConditionSnapshot)
    (varName : String) : Option Bool :=
  match mapGet self.map (normalizeName varName ++ ".id") with
  | some (Variant.boolean b) => some b
  | _ => none

/-- `ConditionSnapshot.prototype.getAckedState` (`none` models the thrown
error when the condition has no AckedState). -/
def ConditionSnapshot.getAckedState (self : ConditionSnapshot) : Option Bool :=
  if !self.condition.hasAckedState then none
  else self._get_twoStateVariable "ackedState"

/-- `ConditionSnapshot.prototype.getConfirmedState` (`none` models the failed
assertion when the condition has no ConfirmedState). -/
def ConditionSnapshot.getConfirmedState (self : ConditionSnapshot) : Option Bool :=
  if !self.condition.hasConfirmedState then none
  else self._get_twoStateVariable "confirmedState"

/-- `ConditionSnapshot.prototype.setConfirmedState`. -/
def ConditionSnapshot.setConfirmedState (self : ConditionSnapshot)
    (confirmedState : Bool) : Option (ConditionSnapshot × List CondEvent) :=
  if !self.condition.hasConfirmedState then none
  else self._set_twoStateVariable "confirmedState" confirmedState

/-- Modelled from the spec: `ConditionSnapshot.setRetain` (condition.js,
absent from src) stores the branch's retain flag. -/
def ConditionSnapshot.setRetain (self : ConditionSnapshot) (retain : Bool) :
    ConditionSnapshot :=
  { self with retain := retain }

/-- Modelled from the spec: `ConditionSnapshot.setComment` (condition.js,
absent from src) stores the branch's comment text. -/
def ConditionSnapshot.setComment (self : ConditionSnapshot) (comment : String) :
    ConditionSnapshot :=
  { self with comment := comment }

/-- `_setAckedState` of the acknowledgeable-condition source: returns
`BadConditionBranchAlreadyAcked` when `ackedState` is already true and true
is requested, otherwise performs the TwoStateVariable update. The `eventId`
and `comment` parameters are accepted and unused, as in the source. -/
def _setAckedState (self : ConditionSnapshot) (requestedAckedState : Bool)
    (_eventId : List Nat) (_comment : String) :
    Option (StatusCode × ConditionSnapshot × List CondEvent) :=
  match self.getAckedState with
  | none => none
  | some ackedState =>
      if ackedState ∧ requestedAckedState then
        some (StatusCode.BadConditionBranchAlreadyAcked, self, [])
      else
        match self._set_twoStateVariable "ackedState" requestedAckedState with
        | none => none
        | some r => some (StatusCode.Good, r.1, r.2)

/-- `UAAcknowledgeableConditionBase.prototype._acknowledge_branch`. The first
component of the result is the JS return value: `some statusCode` on the
early error return, `none` for the undefined value the function returns when
it runs to completion. The outer `Option` models thrown assertions.
`raiseNewBranchState` lives in condition.js (absent from src) and is
modelled from the spec as publishing the branch state (an event). -/
def UAAcknowledgeableConditionBase._acknowledge_branch
    (conditionNode : UAAcknowledgeableConditionBase) (eventId : List Nat)
    (comment : String) (branch : ConditionSnapshot) (_message : String) :
    Option (Option StatusCode × ConditionSnapshot × List CondEvent) :=
  let step1 : Option (ConditionSnapshot × List CondEvent) :=
    if conditionNode.hasConfirmedState then
      match branch.setConfirmedState false with
      | none => none
      | some r1 => some ((r1.1.setRetain true), r1.2)
    else some (branch.setRetain false, [])
  match step1 with
  | none => none
  | some (branch1, events1) =>
      match _setAckedState branch1 true eventId comment with
      | none => none
      | some (statusCode, branch2, events2) =>
          if statusCode ≠ StatusCode.Good then
            some (some statusCode, branch2, events1 ++ events2)
          else
            let branch3 := branch2.setComment comment
            some (none, branch3,
              events1 ++ events2 ++
              [CondEvent.raiseNewBranchState,
               CondEvent.auditConditionAcknowledge branch3.eventId branch3.comment,
               CondEvent.acknowledged eventId comment])

/-- The handler bound by `_acknowledge_method`. `with_condition_method`
(condition.js, absent from src) is modelled from the spec: it resolves the
branch from the eventId, invokes the handler and uses the handler's return
value as the method result. The handler body (in src) calls
`_acknowledge_branch`, discards its status code and returns `Good`. -/
def acknowledge_method_handler (conditionNode : UAAcknowledgeableConditionBase)
    (eventId : List Nat) (comment : String) (branch : ConditionSnapshot) :
    Option (StatusCode × ConditionSnapshot × List CondEvent) :=
  match conditionNode._acknowledge_branch eventId comment branch "Method/Acknowledged" with
  | none => none
  | some r => some (StatusCode.Good, r.2.1, r.2.2)

/-- `UAAcknowledgeableConditionBase.prototype._confirm_branch`. The inner
`var eventId = branch.getEventId()` shadows the parameter, so the branch's
own eventId is used from then on (spec §9 note 2). -/
def UAAcknowledgeableConditionBase._confirm_branch
    (_conditionNode : UAAcknowledgeableConditionBase) (_eventIdArg : List Nat)
    (comment : String) (branch : ConditionSnapshot) (message : String) :
    Option (ConditionSnapshot × List CondEvent) :=
  let eventId := branch.eventId
  match branch.setConfirmedState true with
  | none => none
  | some r1 =>
      let branch1 := r1.1.setRetain false
      let branch2 := branch1.setComment comment
      some (branch2,
        r1.2 ++
        [CondEvent.auditConditionComment message eventId comment,
         CondEvent.auditConditionConfirm branch2.eventId branch2.comment,
         CondEvent.raiseNewBranchState,
         CondEvent.confirmed eventId comment])

/-- The handler bound by `_confirm_method` (src): if the branch is already
confirmed it returns `BadConditionBranchAlreadyConfirmed` without calling
`_confirm_branch`; otherwise `_confirm_branch` runs and `Good` is returned.
`with_condition_method` is modelled from the spec as for Acknowledge. -/
def confirm_method_handler (conditionNode : UAAcknowledgeableConditionBase)
    (eventId : List Nat) (comment : String) (branch : ConditionSnapshot) :
    Option (StatusCode × ConditionSnapshot × List CondEvent) :=
  match branch.getConfirmedState with
  | none => none
  | some confirmedState =>
      if confirmedState then
        some (StatusCode.BadConditionBranchAlreadyConfirmed, branch, [])
      else
        match conditionNode._confirm_branch eventId comment branch "Method/Confirm" with
        | none => none
        | some r => some (StatusCode.Good, r.1, r.2)

/-- Order-preserving chunking as the spec words it: chunks of at most `m`
entries, `m = 0` giving a single chunk holding everything. Spec-side
definition, compared against the code's collection loop. -/
def chunksOf (m : Nat) (l : List MonitoredItemNotif) : List (List MonitoredItemNotif) :=
  if _h : l.length = 0 then []
  else if m = 0 then [l]
  else l.take m :: chunksOf m (l.drop m)
termination_by l.length
decreasing_by
  simp
  omega

/-- The one or two notification objects for one chunk, as the spec words it:
a `DataChangeNotification` holding the chunk's data-change entries when there
are any, followed by an `EventNotificationList` holding its event entries
when there are any. Spec-side definition. -/
def chunkNotifications (chunk : List MonitoredItemNotif) : List NotificationData :=
  (if (chunk.filter isMonitoredItemNotification).length ≠ 0 then
    [NotificationData.dataChangeNotification (chunk.filter isMonitoredItemNotification)]
   else [])
  ++ (if (chunk.filter isEventFieldList).length ≠ 0 then
    [NotificationData.eventNotificationList (chunk.filter isEventFieldList)]
   else [])

/-- The envelopes `_addNotificationMessage` appends for a list of message
payloads, when the sequence generator stands at `c` and the publish interval
counter at `tick`: fresh, consecutive sequence numbers `c+1, c+2, ...`. -/
def envelopesFrom (c : Nat) (tick : Nat) :
    List (List NotificationData) → List NotificationEnvelope
  | [] => []
  | msg :: rest =>
      { sequenceNumber := c + 1, start_tick := tick, notification := msg } ::
        envelopesFrom (c + 1) tick rest

/-- Per-message payload sizes: how many data-change entries and how many
event entries a message's notification objects carry. -/
def notificationDataSizes (msg : List NotificationData) : Nat × Nat :=
  (msg.foldl (fun acc nd => match nd with
    | NotificationData.dataChangeNotification l => acc + l.length
    | _ => acc) 0,
   msg.foldl (fun acc nd => match nd with
    | NotificationData.eventNotificationList l => acc + l.length
    | _ => acc) 0)

/-- How many `AuditConditionAcknowledgeEventType` events a trace raises. -/
def countAuditAcknowledge (trace : List CondEvent) : Nat :=
  (trace.filter (fun e => match e with
    | CondEvent.auditConditionAcknowledge _ _ => true
    | _ => false)).length

/-- A concrete subscription used by the concrete-scenario theorems. -/
def exampleSubscription : Subscription :=
  { id := 1, priority := 0, publishingInterval := 100, maxKeepAliveCount := 3,
    lifeTimeCount := 9, maxNotificationsPerPublish := 0, publishingEnabled := true,
    messageSent := false, _life_time_counter := 0, _keep_alive_counter := 0,
    publishIntervalCount := 0, _pending_notifications := [], _sent_notifications := [],
    _sequence_number_generator := ⟨0⟩, state := SubscriptionState.NORMAL,
    monitoredItems := [], _unacknowledgedMessageCount := 0, timerActive := true }

/-- An empty sent-queue envelope with a given sequence number. -/
def mkEnvelope (n : Nat) : NotificationEnvelope :=
  { sequenceNumber := n, start_tick := 0, notification := [] }

/-- A subscription whose retransmission queue holds 101 entries, sent in
order of sequence numbers 1..101 (1 the oldest, 101 the most recent). -/
def subscriptionWith101Sent : Subscription :=
  { exampleSubscription with
      _sent_notifications := (List.range 101).map (fun i => mkEnvelope (i + 1)) }

/-- Concrete `modify` parameters: all requested values positive except a
negative `maxNotificationsPerPublish`. -/
def exampleModifyParams : ModifySubscriptionParameters :=
  { requestedPublishingInterval := 100, requestedLifetimeCount := 20,
    requestedMaxKeepAliveCount := 5, maxNotificationsPerPublish := -5, priority := 1 }

/-- The S4 harvest: 5 data-change entries followed by 3 event entries. -/
def s4Harvest : List MonitoredItemNotif :=
  [MonitoredItemNotif.monitoredItemNotification 1,
   MonitoredItemNotif.monitoredItemNotification 2,
   MonitoredItemNotif.monitoredItemNotification 3,
   MonitoredItemNotif.monitoredItemNotification 4,
   MonitoredItemNotif.monitoredItemNotification 5,
   MonitoredItemNotif.eventFieldList 6,
   MonitoredItemNotif.eventFieldList 7,
   MonitoredItemNotif.eventFieldList 8]

/-- A subscription with a three-entry sent queue (sequence numbers 3, 5, 7). -/
def exampleSubscriptionAck : Subscription :=
  { exampleSubscription with
      _sent_notifications := [mkEnvelope 3, mkEnvelope 5, mkEnvelope 7],
      _unacknowledgedMessageCount := 3 }

/-- A subscription one tick away from lifetime expiration, owning one
monitored item. -/
def exampleSubscriptionExpiring : Subscription :=
  { exampleSubscription with
      _life_time_counter := 8,
      monitoredItems := [{ monitoredItemId := 42, notifications := [] }] }

/-- A publish engine with no pending publish requests. -/
def engineNoRequests : PublishEngine :=
  { pendingPublishRequestCount := 0, keepAliveAccepted := false }

/-- A condition node without the optional ConfirmedState. -/
def condNoConfirm : UAAcknowledgeableConditionBase :=
  { hasAckedState := true, hasConfirmedState := false }

/-- A condition node with ConfirmedState installed. -/
def condWithConfirm : UAAcknowledgeableConditionBase :=
  { hasAckedState := true, hasConfirmedState := true }

/-- A not-yet-acknowledged branch of `condNoConfirm`. -/
def ackBranch0 : ConditionSnapshot :=
  { map := [("ackedState.id", Variant.boolean false),
            ("ackedState", Variant.localizedText "Unacknowledged")],
    nodeIndex := [("ackedState",
      { trueState := "Acknowledged", falseState := "Unacknowledged", value := false })],
    condition := condNoConfirm, branchIdIsNull := false,
    eventId := [1, 2, 3], comment := "", retain := true }

/-- The branch state after the first Acknowledge method call on
`ackBranch0`. -/
def ackBranch1 : ConditionSnapshot :=
  match acknowledge_method_handler condNoConfirm [1, 2, 3] "first comment" ackBranch0 with
  | some r => r.2.1
  | none => ackBranch0

/-- An acknowledged, not-yet-confirmed branch of `condWithConfirm`. -/
def confirmBranch0 : ConditionSnapshot :=
  { map := [("ackedState.id", Variant.boolean true),
            ("ackedState", Variant.localizedText "Acknowledged"),
            ("confirmedState.id", Variant.boolean false),
            ("confirmedState", Variant.localizedText "Unconfirmed")],
    nodeIndex := [("ackedState",
      { trueState := "Acknowledged", falseState := "Unacknowledged", value := true }),
      ("confirmedState",
      { trueState := "Confirmed", falseState := "Unconfirmed", value := false })],
    condition := condWithConfirm, branchIdIsNull := false,
    eventId := [9], comment := "", retain := true }

/-- An already-acknowledged branch of `condWithConfirm` (ackedState true,
confirmed, not retained). -/
def alreadyAckedBranch : ConditionSnapshot :=
  { confirmBranch0 with
      map := [("ackedState.id", Variant.boolean true),
              ("ackedState", Variant.localizedText "Acknowledged"),
              ("confirmedState.id", Variant.boolean true),
              ("confirmedState", Variant.localizedText "Confirmed")],
      retain := false }

/-- Claim C1 (evaluation at the failing input): with 101 entries in the sent
queue, sent in order of sequence numbers 1..101, the discard-old pass keeps
only the oldest entry (sequence number 1) and removes the 100 most recently
sent ones — the opposite of keeping the 100 most recent entries, which is
what the claim and the source's own comment ("the oldest sent
NotificationMessage gets deleted") describe. -/
theorem discardOldSentNotifications_keeps_oldest :
    subscriptionWith101Sent._sent_notifications.length = 101
    ∧ ((subscriptionWith101Sent.discardOldSentNotifications)._sent_notifications.map
        NotificationEnvelope.sequenceNumber = [1]) := by
  exact ⟨rfl, rfl⟩

/-- Claim C2 counterexample: at a concrete parameter record (all requested
values positive, maxNotificationsPerPublish = -5), after `modify` the
keep-alive counter is not 0 (the timer restart presets it to
maxKeepAliveCount) and `maxNotificationsPerPublish` is not `max input 0`
(it is stored unadjusted). -/
theorem modify_counterexample :
    ¬ (((exampleSubscription.modify exampleModifyParams)._keep_alive_counter = 0)
       ∧ ((exampleSubscription.modify exampleModifyParams).maxNotificationsPerPublish
          = max exampleModifyParams.maxNotificationsPerPublish 0)) := by
  decide

/-- Claim C2 (amended): after `modify(p)` the timing parameters equal the
§4.1 clamping formulas (with `p.requestedMaxKeepAliveCount = 0` and
`p.requestedLifetimeCount = 0` meaning "no change"), but
`maxNotificationsPerPublish` is stored exactly as passed (no `max _ 0`
adjustment), `_life_time_counter` is 0, and `_keep_alive_counter` equals the
new `maxKeepAliveCount` (not 0), because `modify` restarts the timer and
`_start_timer` presets the keep-alive counter so that a keep-alive goes out
at the end of the first new publishing cycle. -/
theorem modify_spec (sub : Subscription) (param : ModifySubscriptionParameters) :
    (sub.modify param).publishingInterval
      = min (max (orDefault param.requestedPublishingInterval 1000) 50) 1296000000
    ∧ (sub.modify param).maxKeepAliveCount
      = min (max (orDefault (orDefault param.requestedMaxKeepAliveCount sub.maxKeepAliveCount) 2) 2)
          12000
    ∧ (sub.modify param).lifeTimeCount
      = max (ceilDiv 5000 ((sub.modify param).publishingInterval))
          (max (orDefault (orDefault param.requestedLifetimeCount sub.lifeTimeCount) 1)
            ((sub.modify param).maxKeepAliveCount * 3))
    ∧ (sub.modify param).maxNotificationsPerPublish = param.maxNotificationsPerPublish
    ∧ (sub.modify param).priority = param.priority
    ∧ (sub.modify param)._life_time_counter = 0
    ∧ (sub.modify param)._keep_alive_counter = (sub.modify param).maxKeepAliveCount
    ∧ (sub.modify param).timerActive = true := by
  have hOr : orDefault (orDefault param.requestedPublishingInterval 0) 1000
      = orDefault param.requestedPublishingInterval 1000 := by
    unfold orDefault
    by_cases h : param.requestedPublishingInterval = 0 <;> simp [h]
  by_cases ht : sub.timerActive <;>
    simp [Subscription.modify, Subscription.resetLifeTimeAndKeepAliveCounters,
      Subscription.resetLifeTimeCounter, Subscription.resetKeepAliveCounter,
      Subscription._stop_timer, Subscription._start_timer,
      _adjust_publishing_interval, _adjust_maxKeepAliveCount, _adjust_lifeTimeCount,
      defaultPublishingInterval, minimumPublishingInterval, maximumPublishingInterval,
      minimumMaxKeepAliveCount, maximumMaxKeepAliveCount, hOr, ht]

/-- Claim C4 counterexample: with maxNotificationsPerPublish = 2 and a
harvest of 5 data-change entries followed by 3 events, the per-chunk
(data-change, event) payload sizes are NOT (2,0),(2,0),(1,2),(0,1) as
claimed. -/
theorem collectNotificationData_s4_claimed_sizes_false :
    ¬ ((_collectNotificationData_loop s4Harvest 2).map notificationDataSizes
        = [(2, 0), (2, 0), (1, 2), (0, 1)]) := by
  simp [_collectNotificationData_loop, extract_notifications_chunk, s4Harvest,
    isMonitoredItemNotification, isEventFieldList, notificationDataSizes]

/-- Claim C4 (amended): with maxNotificationsPerPublish = 2 and a harvest of
5 data-change entries followed by 3 events, notification assembly produces
exactly 4 NotificationMessages whose per-chunk (data-change, event) payload
sizes are (2,0), (2,0), (1,1), (0,2) in that order, with the data-change
entries first within the mixed chunk. -/
theorem collectNotificationData_s4_sizes :
    _collectNotificationData_loop s4Harvest 2 =
      [[NotificationData.dataChangeNotification
          [MonitoredItemNotif.monitoredItemNotification 1,
           MonitoredItemNotif.monitoredItemNotification 2]],
       [NotificationData.dataChangeNotification
          [MonitoredItemNotif.monitoredItemNotification 3,
           MonitoredItemNotif.monitoredItemNotification 4]],
       [NotificationData.dataChangeNotification
          [MonitoredItemNotif.monitoredItemNotification 5],
        NotificationData.eventNotificationList [MonitoredItemNotif.eventFieldList 6]],
       [NotificationData.eventNotificationList
          [MonitoredItemNotif.eventFieldList 7, MonitoredItemNotif.eventFieldList 8]]]
    ∧ (_collectNotificationData_loop s4Harvest 2).map notificationDataSizes
        = [(2, 0), (2, 0), (1, 1), (0, 2)] := by
  constructor <;>
    simp [_collectNotificationData_loop, extract_notifications_chunk, s4Harvest,
      isMonitoredItemNotification, isEventFieldList, notificationDataSizes]

theorem ackScan_of_no_match (l : List NotificationEnvelope) (n : Nat) :
    ∀ (i : Nat) (acc : Option Nat), (∀ e ∈ l, e.sequenceNumber ≠ n) →
      ackScan l n i acc = acc := by
  induction l with
  | nil => intro i acc _; rfl
  | cons hd tl ih =>
      intro i acc h
      have hhd : hd.sequenceNumber ≠ n := h hd (List.mem_cons_self hd tl)
      have htl : ∀ e ∈ tl, e.sequenceNumber ≠ n :=
        fun e he => h e (List.mem_cons_of_mem hd he)
      simp [ackScan, hhd]
      exact ih (i + 1) acc htl

theorem ackScan_of_match (l : List NotificationEnvelope) (n : Nat) :
    ∀ (i : Nat) (acc : Option Nat), (∃ e ∈ l, e.sequenceNumber = n) →
      ∃ j e, ackScan l n i acc = some (i + j) ∧ l[j]? = some e
        ∧ e.sequenceNumber = n := by
  induction l with
  | nil => intro i acc h; simp at h
  | cons hd tl ih =>
      intro i acc h
      by_cases htl : ∃ e ∈ tl, e.sequenceNumber = n
      · obtain ⟨j, e, hscan, hget, hseq⟩ :=
          ih (i + 1) (if hd.sequenceNumber = n then some i else acc) htl
        refine ⟨j + 1, e, ?_, by simpa using hget, hseq⟩
        have : i + 1 + j = i + (j + 1) := by omega
        simpa [ackScan, this] using hscan
      · have hhd : hd.sequenceNumber = n := by
          obtain ⟨e, he, hs⟩ := h
          rcases List.mem_cons.mp he with rfl | hmem
          · exact hs
          · exact absurd ⟨e, hmem, hs⟩ htl
        have hno : ∀ e ∈ tl, e.sequenceNumber ≠ n := by
          intro e he hs
          exact htl ⟨e, he, hs⟩
        refine ⟨0, hd, ?_, by simp, hhd⟩
        simpa [ackScan, hhd] using ackScan_of_no_match tl n (i + 1) (some i) hno

theorem getElem?_decomp (l : List NotificationEnvelope) :
    ∀ (j : Nat) (e : NotificationEnvelope), l[j]? = some e →
      ∃ l1 l2, l = l1 ++ e :: l2 ∧ l1.length = j ∧ l.eraseIdx j = l1 ++ l2 := by
  induction l with
  | nil => intro j e h; simp at h
  | cons hd tl ih =>
      intro j e h
      cases j with
      | zero =>
          simp at h
          exact ⟨[], tl, by simp [h], by simp, by simp⟩
      | succ j =>
          simp at h
          obtain ⟨l1, l2, h1, h2, h3⟩ := ih j e h
          exact ⟨hd :: l1, l2, by simp [h1], by simp [h2], by simp [h3]⟩

/-- Claim C5: `acknowledgeNotification(n)` with `n` present in the sent
queue removes exactly that entry, decrements `_unacknowledgedMessageCount`
by one and returns Good, leaving every other field unchanged; with `n`
absent it returns BadSequenceNumberUnknown and mutates nothing at all, so
repeating it on a nonexistent `n` is idempotent in effect. -/
theorem acknowledgeNotification_spec (sub : Subscription) (n : Nat) :
    ((∃ e ∈ sub._sent_notifications, e.sequenceNumber = n) →
      ∃ l1 e l2, e.sequenceNumber = n
        ∧ sub._sent_notifications = l1 ++ e :: l2
        ∧ sub.acknowledgeNotification n =
            (StatusCode.Good,
             { sub with _sent_notifications := l1 ++ l2,
                        _unacknowledgedMessageCount :=
                          sub._unacknowledgedMessageCount - 1 }))
    ∧ ((∀ e ∈ sub._sent_notifications, e.sequenceNumber ≠ n) →
      sub.acknowledgeNotification n = (StatusCode.BadSequenceNumberUnknown, sub)) := by
  constructor
  · intro h
    obtain ⟨j, e, hscan, hget, hseq⟩ := ackScan_of_match sub._sent_notifications n 0 none h
    obtain ⟨l1, l2, hdec, _, herase⟩ := getElem?_decomp sub._sent_notifications j e hget
    refine ⟨l1, e, l2, hseq, hdec, ?_⟩
    unfold Subscription.acknowledgeNotification
    rw [hscan]
    simp [herase]
  · intro h
    unfold Subscription.acknowledgeNotification
    rw [ackScan_of_no_match sub._sent_notifications n 0 none h]

/-- Witness for claim C5 at a concrete queue (sequence numbers 3, 5, 7):
a missing sequence number 9 is rejected without mutation, and a present
sequence number 5 is acknowledged. -/
theorem acknowledgeNotification_spec_witness :
    exampleSubscriptionAck.acknowledgeNotification 9
      = (StatusCode.BadSequenceNumberUnknown, exampleSubscriptionAck)
    ∧ (∃ l1 e l2, e.sequenceNumber = 5
        ∧ exampleSubscriptionAck._sent_notifications = l1 ++ e :: l2
        ∧ exampleSubscriptionAck.acknowledgeNotification 5 =
            (StatusCode.Good,
             { exampleSubscriptionAck with
                 _sent_notifications := l1 ++ l2,
                 _unacknowledgedMessageCount :=
                   exampleSubscriptionAck._unacknowledgedMessageCount - 1 })) := by
  constructor
  · exact (acknowledgeNotification_spec exampleSubscriptionAck 9).2 (by decide)
  · exact (acknowledgeNotification_spec exampleSubscriptionAck 5).1
      ⟨mkEnvelope 5, by decide, rfl⟩

/-- Claim C6 counterexample: at a concrete subscription one tick from
expiration, the tick's observable order is "expired" first and the
StatusChangeNotification(BadTimeout) enqueued second, so the order stated by
the claim (enqueue, then emit "expired", then terminate) is false. -/
theorem tick_expiration_order_counterexample :
    (exampleSubscriptionExpiring._tick engineNoRequests).2 =
      [SubEvent.expired, SubEvent.statusChangeEnqueued StatusCode.BadTimeout,
       SubEvent.removeMonitoredItem 42, SubEvent.terminated,
       SubEvent.onCloseSubscription]
    ∧ ¬ ((exampleSubscriptionExpiring._tick engineNoRequests).2.indexOf
            (SubEvent.statusChangeEnqueued StatusCode.BadTimeout)
          < (exampleSubscriptionExpiring._tick engineNoRequests).2.indexOf
            SubEvent.expired) := by
  decide

/-- Claim C6 (amended): on every tick where the incremented
`_life_time_counter` reaches or exceeds `lifeTimeCount`, the subscription
emits "expired" FIRST, then enqueues a StatusChangeNotification(BadTimeout)
onto the pending notification queue, then calls terminate(); afterwards the
state is CLOSED, the timer is stopped, the monitored-item map is empty and
the "terminated" event has fired; the tick does no further processing. -/
theorem tick_expiration (sub : Subscription) (engine : PublishEngine)
    (h1 : sub.state ≠ SubscriptionState.CLOSED)
    (h2 : sub.lifeTimeCount ≤ sub._life_time_counter + 1) :
    (sub._tick engine).2 =
      SubEvent.expired :: SubEvent.statusChangeEnqueued StatusCode.BadTimeout ::
        (sub.monitoredItems.map
          (fun mi => SubEvent.removeMonitoredItem mi.monitoredItemId)
          ++ [SubEvent.terminated, SubEvent.onCloseSubscription])
    ∧ (sub._tick engine).1.state = SubscriptionState.CLOSED
    ∧ (sub._tick engine).1.timerActive = false
    ∧ (sub._tick engine).1.monitoredItems = []
    ∧ (sub._tick engine).1._pending_notifications
        = sub._pending_notifications ++
          [{ sequenceNumber := sub._sequence_number_generator.counter + 1,
             start_tick := sub.publishIntervalCount + 1,
             notification :=
               [NotificationData.statusChangeNotification StatusCode.BadTimeout] }] := by
  by_cases hd : maxNotificationMessagesInQueue ≤ sub._sent_notifications.length <;>
    by_cases ht : sub.timerActive <;>
      simp [Subscription._tick, Subscription.discardOldSentNotifications,
        Subscription._addNotificationMessage, SequenceNumberGenerator.next,
        Subscription.terminate, Subscription._stop_timer, h1, h2, hd, ht]

/-- Witness for claim C6 (amended) at a concrete expiring subscription. -/
theorem tick_expiration_witness :
    (exampleSubscriptionExpiring._tick engineNoRequests).1.state
        = SubscriptionState.CLOSED
    ∧ (exampleSubscriptionExpiring._tick engineNoRequests).1.timerActive = false
    ∧ (exampleSubscriptionExpiring._tick engineNoRequests).1.monitoredItems = [] :=
  ⟨(tick_expiration exampleSubscriptionExpiring engineNoRequests
      (by decide) (by decide)).2.1,
   (tick_expiration exampleSubscriptionExpiring engineNoRequests
      (by decide) (by decide)).2.2.1,
   (tick_expiration exampleSubscriptionExpiring engineNoRequests
      (by decide) (by decide)).2.2.2.1⟩

theorem take_min_length (l : List MonitoredItemNotif) (m : Nat) :
    l.take (min l.length m) = l.take m := by
  rcases Nat.le_total m l.length with h | h
  · rw [Nat.min_eq_right h]
  · rw [Nat.min_eq_left h, List.take_length, List.take_of_length_le h]

theorem drop_min_length (l : List MonitoredItemNotif) (m : Nat) :
    l.drop (min l.length m) = l.drop m := by
  rcases Nat.le_total m l.length with h | h
  · rw [Nat.min_eq_right h]
  · rw [Nat.min_eq_left h, List.drop_length, List.drop_of_length_le h]

example (s n : Nat) : List.range' s (n + 1) = s :: List.range' (s + 1) n := rfl

theorem collect_loop_eq_chunks (m : Nat) :
    ∀ (all : List MonitoredItemNotif),
      _collectNotificationData_loop all m = (chunksOf m all).map chunkNotifications := by
  have H : ∀ (k : Nat) (all : List MonitoredItemNotif), all.length ≤ k →
      _collectNotificationData_loop all m = (chunksOf m all).map chunkNotifications := by
    intro k
    induction k with
    | zero =>
        intro all h
        have hall : all = [] := List.length_eq_zero.mp (Nat.le_zero.mp h)
        subst hall
        simp [_collectNotificationData_loop, chunksOf]
    | succ k ih =>
        intro all h
        by_cases hnil : all.length = 0
        · have hall : all = [] := List.length_eq_zero.mp hnil
          subst hall
          simp [_collectNotificationData_loop, chunksOf]
        · rw [_collectNotificationData_loop, chunksOf]
          simp only [hnil, dite_false, if_neg]
          by_cases hm : m = 0
          · subst hm
            simp [extract_notifications_chunk, chunkNotifications,
              _collectNotificationData_loop, chunksOf]
          · simp only [hm, if_neg, ite_false]
            rw [List.map_cons]
            simp only [extract_notifications_chunk, hm, ite_false]
            rw [take_min_length, drop_min_length]
            have hdrop : (all.drop m).length ≤ k := by
              rw [List.length_drop]
              omega
            rw [ih (all.drop m) hdrop]
            rfl
  intro all
  exact H all.length all le_rfl

theorem chunksOf_flatten (m : Nat) :
    ∀ (all : List MonitoredItemNotif), (chunksOf m all).flatten = all := by
  have H : ∀ (k : Nat) (all : List MonitoredItemNotif), all.length ≤ k →
      (chunksOf m all).flatten = all := by
    intro k
    induction k with
    | zero =>
        intro all h
        have hall : all = [] := List.length_eq_zero.mp (Nat.le_zero.mp h)
        subst hall
        simp [chunksOf]
    | succ k ih =>
        intro all h
        by_cases hnil : all.length = 0
        · have hall : all = [] := List.length_eq_zero.mp hnil
          subst hall
          simp [chunksOf]
        · rw [chunksOf]
          simp only [hnil, dite_false, if_neg]
          by_cases hm : m = 0
          · simp [hm, chunksOf]
          · simp only [hm, ite_false, if_neg]
            have hdrop : (all.drop m).length ≤ k := by
              rw [List.length_drop]
              omega
            simp [ih (all.drop m) hdrop]
  intro all
  exact H all.length all le_rfl

theorem chunksOf_chunks (m : Nat) :
    ∀ (all : List MonitoredItemNotif), ∀ c ∈ chunksOf m all,
      c ≠ [] ∧ (m ≠ 0 → c.length ≤ m) := by
  have H : ∀ (k : Nat) (all : List MonitoredItemNotif), all.length ≤ k →
      ∀ c ∈ chunksOf m all, c ≠ [] ∧ (m ≠ 0 → c.length ≤ m) := by
    intro k
    induction k with
    | zero =>
        intro all h
        have hall : all = [] := List.length_eq_zero.mp (Nat.le_zero.mp h)
        subst hall
        simp [chunksOf]
    | succ k ih =>
        intro all h
        by_cases hnil : all.length = 0
        · have hall : all = [] := List.length_eq_zero.mp hnil
          subst hall
          simp [chunksOf]
        · rw [chunksOf]
          simp only [hnil, dite_false, if_neg]
          by_cases hm : m = 0
          · simp only [hm, ite_true, if_pos]
            intro c hc
            rw [List.mem_singleton] at hc
            subst hc
            refine ⟨fun hcnil => hnil (by simp [hcnil]), fun h0 => absurd rfl h0⟩
          · simp only [hm, ite_false, if_neg, List.mem_cons]
            intro c hc
            rcases hc with rfl | hc
            · constructor
              · intro htake
                have hlen : min m all.length = 0 := by
                  have hh := congrArg List.length htake
                  simpa [List.length_take] using hh
                rcases Nat.min_eq_zero_iff.mp hlen with h0 | h0
                · exact hm h0
                · exact hnil h0
              · intro _
                simp [List.length_take]
            · have hdrop : (all.drop m).length ≤ k := by
                rw [List.length_drop]
                omega
              exact ih (all.drop m) hdrop c hc
  intro all
  exact H all.length all le_rfl

theorem chunksOf_zero (all : List MonitoredItemNotif) (hall : all ≠ []) :
    chunksOf 0 all = [all] := by
  rw [chunksOf]
  simp [hall, List.length_eq_zero]

theorem envelopesFrom_sequenceNumbers :
    ∀ (msgs : List (List NotificationData)) (c t : Nat),
      (envelopesFrom c t msgs).map NotificationEnvelope.sequenceNumber
        = List.range' (c + 1) msgs.length := by
  intro msgs
  induction msgs with
  | nil => intro c t; rfl
  | cons msg rest ih =>
      intro c t
      simp only [envelopesFrom, List.map_cons, List.length_cons, ih]
      rfl

theorem foldl_addNotificationMessage (msgs : List (List NotificationData)) :
    ∀ (sub : Subscription),
      (msgs.foldl Subscription._addNotificationMessage sub)._pending_notifications
        = sub._pending_notifications
          ++ envelopesFrom sub._sequence_number_generator.counter
              sub.publishIntervalCount msgs := by
  induction msgs with
  | nil => intro sub; simp [envelopesFrom]
  | cons msg rest ih =>
      intro sub
      simp only [List.foldl_cons]
      rw [ih]
      simp [Subscription._addNotificationMessage, SequenceNumberGenerator.next,
        envelopesFrom]

theorem filters_cover (c : List MonitoredItemNotif) :
    (c.filter isMonitoredItemNotification).length
      + (c.filter isEventFieldList).length = c.length := by
  induction c with
  | nil => rfl
  | cons hd tl ih =>
      cases hd <;>
        simp [isMonitoredItemNotification, isEventFieldList, List.filter, ih] <;>
        omega

theorem chunkNotifications_ne_nil (c : List MonitoredItemNotif) (hc : c ≠ []) :
    chunkNotifications c ≠ [] := by
  unfold chunkNotifications
  by_cases h1 : (c.filter isMonitoredItemNotification).length ≠ 0
  · simp [h1]
  · by_cases h2 : (c.filter isEventFieldList).length ≠ 0
    · simp [h1, h2]
    · exfalso
      have hcov := filters_cover c
      have hlen : c.length ≠ 0 := fun h => hc (List.length_eq_zero.mp h)
      rw [not_ne_iff] at h1 h2
      omega

/-- Claim C3: `_collectNotificationData` splits the harvested list
order-preservingly into chunks of at most `maxNotificationsPerPublish`
entries (0 giving a single chunk with everything); each (necessarily
non-empty) chunk yields one or two notification objects — the
DataChangeNotification with the chunk's data-change entries first, then the
EventNotificationList with its event entries — and each chunk becomes one
NotificationMessage enqueued with a fresh, consecutive sequence number. -/
theorem collectNotificationData_chunking (all : List MonitoredItemNotif) (m : Nat)
    (sub : Subscription) :
    _collectNotificationData_loop all m = (chunksOf m all).map chunkNotifications
    ∧ (chunksOf m all).flatten = all
    ∧ (∀ c ∈ chunksOf m all,
        c ≠ [] ∧ chunkNotifications c ≠ [] ∧ (m ≠ 0 → c.length ≤ m))
    ∧ (m = 0 → all ≠ [] → chunksOf m all = [all])
    ∧ (sub._harvestMonitoredItems)._pending_notifications
        = sub._pending_notifications
          ++ envelopesFrom sub._sequence_number_generator.counter
              sub.publishIntervalCount
              (_collectNotificationData_loop
                ((sub.monitoredItems.map MonitoredItem.notifications).flatten)
                sub.maxNotificationsPerPublish.toNat)
    ∧ (∀ (c t : Nat) (msgs : List (List NotificationData)),
        (envelopesFrom c t msgs).map NotificationEnvelope.sequenceNumber
          = List.range' (c + 1) msgs.length) := by
  refine ⟨collect_loop_eq_chunks m all, chunksOf_flatten m all, ?_, ?_, ?_, ?_⟩
  · intro c hc
    obtain ⟨h1, h2⟩ := chunksOf_chunks m all c hc
    exact ⟨h1, chunkNotifications_ne_nil c h1, h2⟩
  · intro hm hall
    subst hm
    exact chunksOf_zero all hall
  · unfold Subscription._harvestMonitoredItems Subscription._collectNotificationData
    rw [foldl_addNotificationMessage]
  · intro c t msgs
    exact envelopesFrom_sequenceNumbers msgs c t

/-- Witness for claim C3 at the concrete S4 harvest with
maxNotificationsPerPublish = 3 (the inner implications discharged at m = 3
and at a non-empty chunk). -/
theorem collectNotificationData_chunking_witness :
    _collectNotificationData_loop s4Harvest 3 = (chunksOf 3 s4Harvest).map chunkNotifications
    ∧ (chunksOf 3 s4Harvest).flatten = s4Harvest
    ∧ (chunksOf 0 s4Harvest = [s4Harvest]) := by
  refine ⟨(collectNotificationData_chunking s4Harvest 3 exampleSubscription).1,
    (collectNotificationData_chunking s4Harvest 3 exampleSubscription).2.1,
    (collectNotificationData_chunking s4Harvest 0 exampleSubscription).2.2.2.1 rfl (by decide)⟩

theorem mapGet_mapSet_self (m : List (String × Variant)) (k : String) (v : Variant) :
    mapGet (mapSet m k v) k = some v := by
  induction m with
  | nil => simp [mapSet, mapGet]
  | cons p rest ih =>
      obtain ⟨k1, v1⟩ := p
      by_cases h : k1 = k <;> simp [mapSet, mapGet, h, ih]

theorem mapGet_mapSet_ne (m : List (String × Variant)) (k k1 : String) (v : Variant)
    (h : k ≠ k1) :
    mapGet (mapSet m k v) k1 = mapGet m k1 := by
  induction m with
  | nil => simp [mapSet, mapGet, h]
  | cons p rest ih =>
      obtain ⟨k2, v2⟩ := p
      by_cases h2 : k2 = k <;> simp [mapSet, mapGet, h, h2, ih]

theorem append_id_ne (s : String) : s ++ ".id" ≠ s := by
  intro h
  have hlen := congrArg String.length h
  rw [String.length_append] at hlen
  have h3 : ".id".length = 3 := rfl
  omega

/-- Claim C9: after `_set_twoStateVariable(V, b)` the snapshot stores
`V.id = b` as a Boolean variant and `V` as a LocalizedText variant whose
value is the variable's trueState label when b is true and its falseState
label when b is false; this holds after every call (for any snapshot on
which the call succeeds). -/
theorem set_twoStateVariable_invariant (snapshot : ConditionSnapshot)
    (varName : String) (b : Bool) (node : UATwoStateVariable)
    (snap1 : ConditionSnapshot) (evs : List CondEvent)
    (hnode : nodeIndexGet snapshot.nodeIndex (normalizeName varName) = some node)
    (hset : snapshot._set_twoStateVariable varName b = some (snap1, evs)) :
    mapGet snap1.map (normalizeName varName ++ ".id") = some (Variant.boolean b)
    ∧ mapGet snap1.map (normalizeName varName)
        = some (Variant.localizedText (if b then node.trueState else node.falseState)) := by
  simp only [ConditionSnapshot._set_twoStateVariable, hnode, Option.some.injEq,
    Prod.mk.injEq] at hset
  obtain ⟨hsnap, hevs⟩ := hset
  subst hsnap
  constructor
  · rw [mapGet_mapSet_ne _ _ _ _ (Ne.symm (append_id_ne (normalizeName varName)))]
    exact mapGet_mapSet_self _ _ _
  · exact mapGet_mapSet_self _ _ _

/-- Witness for claim C9 at a concrete snapshot, setting ackedState to
true. -/
theorem set_twoStateVariable_invariant_witness :
    ∃ snap1 evs, ackBranch0._set_twoStateVariable "ackedState" true = some (snap1, evs)
      ∧ mapGet snap1.map ("ackedState" ++ ".id") = some (Variant.boolean true)
      ∧ mapGet snap1.map "ackedState" = some (Variant.localizedText "Acknowledged") := by
  obtain ⟨snap1, evs, hset⟩ :
      ∃ s e, ackBranch0._set_twoStateVariable "ackedState" true = some (s, e) :=
    ⟨_, _, rfl⟩
  have h := set_twoStateVariable_invariant ackBranch0 "ackedState" true
    { trueState := "Acknowledged", falseState := "Unacknowledged", value := false }
    snap1 evs (by decide) hset
  exact ⟨snap1, evs, hset, h.1, h.2⟩

/-- Claim C10: for a condition supporting ConfirmedState,
`_acknowledge_branch` on a branch whose ackedState is already true returns
BadConditionBranchAlreadyAcked, but the branch has already been mutated:
its confirmedState was set to false and its retain flag to true before the
already-acked check ran. -/
theorem acknowledge_branch_already_acked_mutates
    (cond : UAAcknowledgeableConditionBase) (branch : ConditionSnapshot)
    (eventId : List Nat) (comment message : String) (node : UATwoStateVariable)
    (hconf : cond.hasConfirmedState = true)
    (hbc : branch.condition = cond)
    (hack : branch.condition.hasAckedState = true)
    (hnode : nodeIndexGet branch.nodeIndex "confirmedState" = some node)
    (hacked : mapGet branch.map ("ackedState" ++ ".id") = some (Variant.boolean true)) :
    ∃ branch2 evs,
      cond._acknowledge_branch eventId comment branch message
        = some (some StatusCode.BadConditionBranchAlreadyAcked, branch2, evs)
      ∧ mapGet branch2.map ("confirmedState" ++ ".id") = some (Variant.boolean false)
      ∧ branch2.retain = true := by
  unfold UAAcknowledgeableConditionBase._acknowledge_branch
  simp only [hconf, if_pos, ite_true]
  unfold ConditionSnapshot.setConfirmedState
  rw [hbc]
  simp only [hconf, Bool.not_true, Bool.false_eq_true, if_neg, ite_false]
  simp only [ConditionSnapshot._set_twoStateVariable, normalizeName, hnode,
    ConditionSnapshot.setRetain]
  unfold _setAckedState ConditionSnapshot.getAckedState
    ConditionSnapshot._get_twoStateVariable
  simp only [normalizeName, hack, Bool.not_true]
  rw [mapGet_mapSet_ne _ _ _ _ (by decide), mapGet_mapSet_ne _ _ _ _ (by decide),
    hacked]
  simp only [Bool.false_eq_true, if_false, ite_false, true_and, if_true, ite_true,
    ne_eq, reduceCtorEq, not_false_iff, if_pos]
  refine ⟨_, _, rfl, ?_, rfl⟩
  rw [mapGet_mapSet_ne _ _ _ _ (Ne.symm (append_id_ne "confirmedState"))]
  exact mapGet_mapSet_self _ _ _

/-- Witness for claim C10 at a concrete already-acknowledged branch. -/
theorem acknowledge_branch_already_acked_mutates_witness :
    ∃ branch2 evs,
      condWithConfirm._acknowledge_branch [9] "late comment" alreadyAckedBranch
          "Method/Acknowledged"
        = some (some StatusCode.BadConditionBranchAlreadyAcked, branch2, evs)
      ∧ mapGet branch2.map ("confirmedState" ++ ".id") = some (Variant.boolean false)
      ∧ branch2.retain = true :=
  acknowledge_branch_already_acked_mutates condWithConfirm alreadyAckedBranch [9]
    "late comment" "Method/Acknowledged"
    { trueState := "Confirmed", falseState := "Unconfirmed", value := false }
    rfl rfl rfl (by decide) (by decide)

/-- Claim C8: on a condition with ConfirmedState and a not-yet-confirmed
branch, the Confirm method sets confirmedState to true and retain to false,
stores the comment, raises AuditConditionCommentEventType then
AuditConditionConfirmEventType in that order, and emits "confirmed"; a
second Confirm on the same branch returns BadConditionBranchAlreadyConfirmed
without running `_confirm_branch` again (its trace is empty). -/
theorem confirm_method_flow (cond : UAAcknowledgeableConditionBase)
    (branch : ConditionSnapshot) (eventIdArg : List Nat) (comment : String)
    (node : UATwoStateVariable)
    (hconf : branch.condition.hasConfirmedState = true)
    (hnode : nodeIndexGet branch.nodeIndex "confirmedState" = some node)
    (hnotyet : mapGet branch.map ("confirmedState" ++ ".id") = some (Variant.boolean false)) :
    ∃ branch1,
      confirm_method_handler cond eventIdArg comment branch
        = some (StatusCode.Good, branch1,
            [CondEvent.value_changed ("confirmedState" ++ ".id") (Variant.boolean true),
             CondEvent.auditConditionComment "Method/Confirm" branch.eventId comment,
             CondEvent.auditConditionConfirm branch.eventId comment,
             CondEvent.raiseNewBranchState,
             CondEvent.confirmed branch.eventId comment])
      ∧ mapGet branch1.map ("confirmedState" ++ ".id") = some (Variant.boolean true)
      ∧ mapGet branch1.map "confirmedState" = some (Variant.localizedText node.trueState)
      ∧ branch1.retain = false
      ∧ branch1.comment = comment
      ∧ branch1.eventId = branch.eventId
      ∧ confirm_method_handler cond eventIdArg comment branch1
          = some (StatusCode.BadConditionBranchAlreadyConfirmed, branch1, []) := by
  unfold confirm_method_handler ConditionSnapshot.getConfirmedState
    ConditionSnapshot._get_twoStateVariable
  simp only [normalizeName, hconf, Bool.not_true, Bool.false_eq_true, if_false,
    ite_false, hnotyet]
  unfold UAAcknowledgeableConditionBase._confirm_branch
    ConditionSnapshot.setConfirmedState ConditionSnapshot._set_twoStateVariable
  simp only [normalizeName, hconf, Bool.not_true, Bool.false_eq_true, if_false,
    ite_false, hnode, ConditionSnapshot.setRetain, ConditionSnapshot.setComment,
    if_true, ite_true]
  have hgetid : mapGet
      (mapSet (mapSet branch.map ("confirmedState" ++ ".id") (Variant.boolean true))
        "confirmedState" (Variant.localizedText node.trueState))
      ("confirmedState" ++ ".id") = some (Variant.boolean true) := by
    rw [mapGet_mapSet_ne _ _ _ _ (Ne.symm (append_id_ne "confirmedState"))]
    exact mapGet_mapSet_self _ _ _
  refine ⟨_, rfl, hgetid, mapGet_mapSet_self _ _ _, rfl, rfl, rfl, ?_⟩
  simp only [hconf, Bool.not_true, Bool.false_eq_true, if_false, ite_false, hgetid,
    if_true, ite_true]

/-- Witness for claim C8 at a concrete acknowledged, unconfirmed branch. -/
theorem confirm_method_flow_witness :
    ∃ branch1,
      confirm_method_handler condWithConfirm [9] "confirm comment" confirmBranch0
        = some (StatusCode.Good, branch1,
            [CondEvent.value_changed ("confirmedState" ++ ".id") (Variant.boolean true),
             CondEvent.auditConditionComment "Method/Confirm" confirmBranch0.eventId
               "confirm comment",
             CondEvent.auditConditionConfirm confirmBranch0.eventId "confirm comment",
             CondEvent.raiseNewBranchState,
             CondEvent.confirmed confirmBranch0.eventId "confirm comment"])
      ∧ mapGet branch1.map ("confirmedState" ++ ".id") = some (Variant.boolean true)
      ∧ mapGet branch1.map "confirmedState" = some (Variant.localizedText "Confirmed")
      ∧ branch1.retain = false
      ∧ branch1.comment = "confirm comment"
      ∧ branch1.eventId = confirmBranch0.eventId
      ∧ confirm_method_handler condWithConfirm [9] "confirm comment" branch1
          = some (StatusCode.BadConditionBranchAlreadyConfirmed, branch1, []) :=
  confirm_method_flow condWithConfirm confirmBranch0 [9] "confirm comment"
    { trueState := "Confirmed", falseState := "Unconfirmed", value := false }
    rfl (by decide) (by decide)

/-- Claim C7 (evaluation at the failing input): Acknowledge called twice
with the same eventId on a condition without ConfirmedState. The first
method call returns Good and raises exactly one
AuditConditionAcknowledgeEventType. On the second call the internal
`_acknowledge_branch` reports BadConditionBranchAlreadyAcked and raises no
audit event, but the method handler DISCARDS that status and returns Good —
not BadConditionBranchAlreadyAcked as the claim states. Exactly one audit
event is raised across both calls. -/
theorem acknowledge_method_twice :
    ((acknowledge_method_handler condNoConfirm [1, 2, 3] "first comment" ackBranch0).map
        (fun r => (r.1, countAuditAcknowledge r.2.2)))
      = some (StatusCode.Good, 1)
    ∧ ((acknowledge_method_handler condNoConfirm [1, 2, 3] "second comment" ackBranch1).map
        (fun r => (r.1, countAuditAcknowledge r.2.2)))
      = some (StatusCode.Good, 0)
    ∧ ((condNoConfirm._acknowledge_branch [1, 2, 3] "second comment" ackBranch1
          "Method/Acknowledged").map (fun r => r.1))
      = some (some StatusCode.BadConditionBranchAlreadyAcked) := by
  decide
